import Mathlib

/-
Verification of django_socket_framework (consumers.py, types.py) against its
natural-language specification. The Python source is shallowly embedded:
pure computations become Lean functions, per-session mutable state becomes
explicit state passing, Python exceptions become Option/Except values, and
the documented semantics of the CPython runtime (attribute lookup on class
attributes, private-name mangling of double-underscore identifiers in class
bodies, mutable default arguments, asyncio.wait on an empty collection) are
reflected where the source relies on them.
-/

namespace DSF

/-- Error type codes. The four string constants come from types.py
(ErrorType.SYSTEM_ERROR, ACCESS_ERROR, AUTHORIZATION_ERROR, FIELD_ERROR).
Modelled from the spec: `typeError` stands for ErrorType.TYPE_ERROR, which
consumers.py references but which is absent from the provided types.py;
the spec's error taxonomy (section 7) lists TYPE_ERROR for malformed request
shapes, so it is included here. -/
inductive ErrorType
  | systemError
  | accessError
  | authorizationError
  | fieldError
  | typeError
deriving DecidableEq, Repr

/-- Python values as they occur in response envelopes. `tup1` captures a
Python 1-tuple `(v,)`, needed because send_error builds such tuples via
trailing commas; no wider tuples occur in the embedded code. -/
inductive PyVal
  | str : String → PyVal
  | err : ErrorType → PyVal
  | num : Nat → PyVal
  | tup1 : PyVal → PyVal
  | none : PyVal
deriving DecidableEq, Repr

/-- Python dict with string keys, as an insertion-ordered association list. -/
abbrev Dict := List (String × PyVal)

/-- Python dict assignment d[k] = v: update the existing entry in place,
otherwise append at the end (insertion order is preserved). -/
def setKey : Dict → String → PyVal → Dict
  | [], k, v => [(k, v)]
  | (k2, v2) :: rest, k, v =>
      if k2 = k then (k, v) :: rest else (k2, v2) :: setKey rest k v

theorem lookup_setKey (d : Dict) (k : String) (v : PyVal) :
    (setKey d k v).lookup k = some v := by
  induction d with
  | nil => simp [setKey, List.lookup]
  | cons hd tl ih =>
      obtain ⟨k2, v2⟩ := hd
      by_cases h : k2 = k
      · simp [setKey, h, List.lookup]
      · have hb : (k == k2) = false := by
          simp [beq_iff_eq]
          exact fun he => h he.symm
        simp [setKey, h, List.lookup, hb, ih]

/-- ConsumerError from types.py: a RuntimeError carrying an error_type code
and extra keyword parameters (addition_parameters). BaseConsumerError,
ConsumerTypeError and ConsumerSystemError used by consumers.py follow this
shape (they are imported from types.py but missing from the provided file;
modelled from the spec's error taxonomy, they are ConsumerError values with
the corresponding error_type). -/
structure ConsumerError where
  msg : String
  error_type : ErrorType
  addition_parameters : Dict
deriving DecidableEq, Repr

/-- Exceptions flowing through the dispatch path: `consumer` is an
isinstance-of-BaseConsumerError exception, `system` is any other Python
exception with str(e) as its message. -/
inductive Exc
  | consumer : ConsumerError → Exc
  | system : String → Exc
deriving DecidableEq, Repr

/-- EventType.ERROR from types.py. -/
def EventType.ERROR : String := "error"

/-- Modelled from the spec: the Response envelope class is imported by
consumers.py from types.py but absent from the provided types.py. Per the
spec (sections 3 and 6) an error response carries the event type, a detail
field, the error type code, and any additional parameters (including the
echoed correlation token). The field values below are whatever Python values
send_error passes in. -/
structure Response where
  event : String
  detail : PyVal
  type : PyVal
  additions : Dict
deriving DecidableEq, Repr

/-- JsonConsumer.send_error. Faithful to the source, including the trailing
commas on the two assignments inside `if error:`, which make `text` and
`error_type` Python 1-tuples:
    text = str(error),
    error_type = getattr(error, "error_type", ErrorType.SYSTEM_ERROR),
so the response's detail and type fields are 1-tuples whenever an error
object is supplied. -/
def send_error (text : Option String) (error_type : ErrorType)
    (error : Option ConsumerError) : Response :=
  match error with
  | some e =>
      { event := EventType.ERROR
        detail := PyVal.tup1 (PyVal.str e.msg)
        type := PyVal.tup1 (PyVal.err e.error_type)
        additions := e.addition_parameters }
  | Option.none =>
      { event := EventType.ERROR
        detail := match text with | some s => PyVal.str s | Option.none => PyVal.none
        type := PyVal.err error_type
        additions := [] }

/-- JsonMethodConsumer.handle_error body. Its second parameter is declared as
__response_client_data inside the class body, so CPython mangles the
parameter name to _JsonMethodConsumer__response_client_data; `crd` here is
the value that parameter actually holds. In the consumer branch the error's
addition_parameters dict gets the literal string key assigned; in the system
branch the error is wrapped in a ConsumerSystemError whose keyword argument
name at the call site is not mangled, so the key is again the literal
string. -/
def handle_error (debug : Bool) (error : Exc) (crd : PyVal) : Response :=
  match error with
  | Exc.consumer e =>
      send_error Option.none ErrorType.systemError
        (some { e with
          addition_parameters :=
            setKey e.addition_parameters "__response_client_data" crd })
  | Exc.system msg =>
      send_error Option.none ErrorType.systemError
        (some { msg := if debug then msg else "Internal Server Error"
                error_type := ErrorType.systemError
                addition_parameters := [("__response_client_data", crd)] })

/-- The fixed BaseConsumerError built in JsonConsumer.receive_text's except
block whenever anything raised below it. -/
def fallbackError : ConsumerError :=
  { msg := "The data are not of JSON type."
    error_type := ErrorType.typeError
    addition_parameters := [] }

/-- The response JsonConsumer.receive_text's except block actually sends:
handle_error is called positionally with one argument there, so the mangled
__response_client_data parameter keeps its default None. -/
def fallbackResponse : Response :=
  handle_error false (Exc.consumer fallbackError) PyVal.none

/-- Outcome of the external token lookup performed inside
TokenAuthConsumer.get_user_by_token: AccessToken(token) validation plus the
User.objects.get query. The non-ok constructors are the distinct failure
causes the spec enumerates (malformed, expired, unknown token,
lookup-service error). -/
inductive LookupOutcome
  | ok : Nat → LookupOutcome
  | malformed : LookupOutcome
  | expired : LookupOutcome
  | unknownToken : LookupOutcome
  | serviceError : LookupOutcome
deriving DecidableEq, Repr

/-- LookupOutcome failure discriminator (statement vocabulary). -/
def LookupOutcome.isFailure : LookupOutcome → Bool
  | LookupOutcome.ok _ => false
  | _ => true

/-- TokenAuthConsumer.get_user_by_token: the whole body is wrapped in
`except Exception: return None`, so every failure cause collapses to None. -/
def get_user_by_token (lk : String → LookupOutcome) (token : String) : Option Nat :=
  match lk token with
  | LookupOutcome.ok u => some u
  | _ => Option.none

/-- Python truthiness of the token value `data.get('access_token')`:
`not token` is true for a missing key (None) and for an empty string. -/
def tokenTruthy : Option String → Bool
  | Option.none => false
  | some s => !(s == "")

/-- Per-session state of a TokenAuthConsumer: the authenticated flag, the
user (principal) id, user_group_name, and the contents of the active_groups
set as read through this session. (BaseConsumer.active_groups is in fact a
single class-level set object shared by every instance; that process-wide
aliasing is modelled separately by ClassAttr below, while this structure
tracks the set contents for single-session reasoning.) -/
structure AuthState where
  authenticated : Bool
  user : Option Nat
  user_group_name : Option String
  activeGroups : List String
deriving DecidableEq, Repr

/-- State of a freshly constructed consumer: the class attributes give
authenticated = False, user = None, user_group_name = None, and an empty
active_groups set. -/
def initState : AuthState :=
  { authenticated := false
    user := Option.none
    user_group_name := Option.none
    activeGroups := [] }

/-- BaseConsumer.attach_group: add the group only if it is not already in
active_groups (idempotent join). -/
def attach_group (st : AuthState) (g : String) : AuthState :=
  if g ∈ st.activeGroups then st
  else { st with activeGroups := g :: st.activeGroups }

/-- BaseConsumer.detach_group: remove the group only if present
(idempotent leave). -/
def detach_group (st : AuthState) (g : String) : AuthState :=
  if g ∈ st.activeGroups then { st with activeGroups := st.activeGroups.erase g }
  else st

/-- TokenAuthConsumer.user_group_prefix class attribute. -/
def user_group_prefix : String := "__user"

/-- The group name TokenAuthConsumer.send_to_user publishes to:
self.user_group_prefix + str(user_id). -/
def send_to_user_group (user_id : Nat) : String :=
  user_group_prefix ++ toString user_id

/-- ConsumerError raised by authenticate when the token is falsy. -/
def noTokenError : ConsumerError :=
  { msg := "There is no access token."
    error_type := ErrorType.fieldError
    addition_parameters := [] }

/-- ConsumerError raised by authenticate when get_user_by_token returns
None. -/
def authFailError : ConsumerError :=
  { msg := "Authorization failed."
    error_type := ErrorType.authorizationError
    addition_parameters := [] }

/-- TokenAuthConsumer.authenticate. Returns the post-state and the raised
BaseConsumerError, if any. Statement order is faithful: self.user is
assigned the lookup result (None on failure) before the None check; on
success user_group_name is set to str(self.user.id) — the bare id with no
user_group_prefix applied — then authenticated is set and attach_group joins
that bare group name. -/
def authenticate (gu : String → Option Nat) (st : AuthState)
    (token : Option String) : AuthState × Option ConsumerError :=
  if tokenTruthy token then
    match gu (token.getD "") with
    | Option.none =>
        ({ st with user := Option.none }, some authFailError)
    | some u =>
        (attach_group
          { st with
            user := some u
            user_group_name := some (toString u)
            authenticated := true }
          (toString u),
         Option.none)
  else
    (st, some noTokenError)

/-- A decoded client request envelope. consumers.py reads the method name,
args and kwargs from the JSON object, and TokenAuthConsumer.call_method
reads the token from the top-level key data.get('access_token'). -/
structure ReqData where
  method : Option String
  access_token : Option String
  args : List PyVal
  kwargs : Dict
deriving DecidableEq, Repr

/-- TokenAuthConsumer.call_method: authenticate first when not yet
authenticated, using the top-level access_token field; on success fall
through to JsonMethodConsumer.call_method, which invokes the API method
(the method registry itself lives in method_list.py, absent from the
sources, so the invocation outcome is a parameter). Returns the post-state,
whether the API method dispatch was reached, and the exception raised, if
any. -/
def call_method (gu : String → Option Nat) (invoke : ReqData → Except Exc Unit)
    (st : AuthState) (d : ReqData) : AuthState × Bool × Option Exc :=
  if st.authenticated then
    match invoke d with
    | Except.ok _ => (st, true, Option.none)
    | Except.error e => (st, true, some e)
  else
    match authenticate gu st d.access_token with
    | (st2, some ce) => (st2, false, some (Exc.consumer ce))
    | (st2, Option.none) =>
        match invoke d with
        | Except.ok _ => (st2, true, Option.none)
        | Except.error e => (st2, true, some e)

/-- A decoded frame as seen by JsonMethodConsumer.receive_json: either a
JSON object or any other JSON value (string, array, number, bool, null). -/
inductive JsonData
  | obj : ReqData → JsonData
  | nonObj : JsonData
deriving DecidableEq, Repr

/-- The TypeError CPython raises when receive_json's except block runs
handle_error(error=e, __response_client_data=...): the parameter was
name-mangled to _JsonMethodConsumer__response_client_data at definition,
while keyword names at call sites are not mangled, so the keyword
__response_client_data is rejected. -/
def mangledKeywordError : Exc :=
  Exc.system "handle_error() got an unexpected keyword argument: __response_client_data"

/-- JsonMethodConsumer.receive_json on a TokenAuthConsumer. Non-dict data
raises ConsumerTypeError; any exception from the body is caught by the
inner except block, whose keyword call to handle_error itself raises
TypeError (see mangledKeywordError), which escapes receive_json. Returns
the post-state, whether the API method was reached, and the escaping
exception, if any. -/
def receive_json (gu : String → Option Nat) (invoke : ReqData → Except Exc Unit)
    (st : AuthState) (data : JsonData) : AuthState × Bool × Option Exc :=
  match data with
  | JsonData.nonObj => (st, false, some mangledKeywordError)
  | JsonData.obj d =>
      match call_method gu invoke st d with
      | (st2, reached, Option.none) => (st2, reached, Option.none)
      | (st2, reached, some _) => (st2, reached, some mangledKeywordError)

/-- A raw websocket text frame from the client's point of view: text that is
not JSON at all, text parsing to a non-object JSON value, or text parsing
to a JSON object. -/
inductive Payload
  | nonJson : String → Payload
  | jsonNonObj : Payload
  | jsonObj : ReqData → Payload
deriving DecidableEq, Repr

/-- Result of processing one inbound text frame: the error responses sent
down the socket, whether the API method dispatch was reached, any exception
escaping to the transport layer, and the session state afterwards. -/
structure RxResult where
  sent : List Response
  invoked : Bool
  escaped : Option Exc
  state : AuthState
deriving DecidableEq, Repr

/-- JsonConsumer.receive_text on a TokenAuthConsumer: json.loads failures
and every exception escaping receive_json are caught by the outer except
block, which calls handle_error positionally with the fixed
BaseConsumerError — so the client always receives fallbackResponse on any
error, and nothing propagates to the transport layer. -/
def receive_text (debug : Bool) (gu : String → Option Nat)
    (invoke : ReqData → Except Exc Unit) (st : AuthState) (p : Payload) : RxResult :=
  match p with
  | Payload.nonJson _ =>
      { sent := [handle_error debug (Exc.consumer fallbackError) PyVal.none]
        invoked := false
        escaped := Option.none
        state := st }
  | Payload.jsonNonObj =>
      match receive_json gu invoke st JsonData.nonObj with
      | (st2, reached, Option.none) =>
          { sent := [], invoked := reached, escaped := Option.none, state := st2 }
      | (st2, reached, some _) =>
          { sent := [handle_error debug (Exc.consumer fallbackError) PyVal.none]
            invoked := reached
            escaped := Option.none
            state := st2 }
  | Payload.jsonObj d =>
      match receive_json gu invoke st (JsonData.obj d) with
      | (st2, reached, Option.none) =>
          { sent := [], invoked := reached, escaped := Option.none, state := st2 }
      | (st2, reached, some _) =>
          { sent := [handle_error debug (Exc.consumer fallbackError) PyVal.none]
            invoked := reached
            escaped := Option.none
            state := st2 }

namespace ClassAttr

/-- CPython semantics of the class body line `active_groups: set = set()` in
BaseConsumer: the set() expression is evaluated once, producing one set
object stored on the class. No method ever rebinds self.active_groups, so
attribute lookup on every instance resolves to that single class-level
object, and .add / .remove mutate it in place. ProcState is therefore
process-wide state: one set for all sessions. -/
structure ProcState where
  class_active_groups : List String
deriving DecidableEq, Repr

/-- Reading self.active_groups on any session: attribute lookup falls
through to the class attribute, the same object for every session id. -/
def active_groups_of (w : ProcState) (_session : Nat) : List String :=
  w.class_active_groups

/-- BaseConsumer.attach_group executed by the given session: the membership
test and the .add both act on the shared class-level set. -/
def attach_group (w : ProcState) (_session : Nat) (g : String) : ProcState :=
  if g ∈ w.class_active_groups then w
  else { class_active_groups := g :: w.class_active_groups }

/-- BaseConsumer.detach_group executed by the given session: the membership
test and the .remove both act on the shared class-level set. -/
def detach_group (w : ProcState) (_session : Nat) (g : String) : ProcState :=
  if g ∈ w.class_active_groups then
    { class_active_groups := w.class_active_groups.erase g }
  else w

end ClassAttr

/-- Message of the TypeError asyncio.wait raises when handed a generator
expression: its first check is iscoroutine(fs), and generator objects count
as (legacy generator-based) coroutines on every Python 3 version, so the
argument is rejected before any element is scheduled. -/
def wait_typeerror_msg : String := "expect a list of futures, not generator"

/-- BaseConsumer.detach_all_groups: the source builds a generator
expression of detach_group(...) coroutines and passes it to asyncio.wait.
asyncio.wait immediately raises TypeError (see wait_typeerror_msg) for a
generator argument — empty or not — before any detach_group coroutine
runs, so no group is ever detached and active_groups is left unchanged.
The result is the post-call active_groups contents paired with the raised
exception message. (init_base_groups has the identical defect on
connect.) -/
def detach_all_groups (groups : List String) : List String × Option String :=
  (groups, some wait_typeerror_msg)

/-- BaseConsumer.disconnect: its whole body is `await self.detach_all_groups()`
with no exception handling; BaseConsumer.websocket_disconnect likewise awaits
disconnect without a try block, so the TypeError detach_all_groups raises
propagates to the consumer layer. -/
def disconnect (groups : List String) : List String × Option String :=
  detach_all_groups groups

/-- Session lifecycle events, each mapped to the source transition that
handles it: websocket_connect/connect, a dispatched client request (the only
code path that calls authenticate, guarded by `if not self.authenticated`),
direct group attach/detach, and websocket_disconnect. -/
inductive SessEvent
  | connect : SessEvent
  | request : ReqData → SessEvent
  | attach : String → SessEvent
  | detach : String → SessEvent
  | disconnect : SessEvent

/-- One session state transition per event. connect touches no session
state (init_base_groups raises the asyncio.wait TypeError before joining
anything); request runs TokenAuthConsumer.call_method; disconnect runs
detach_all_groups, which raises the same TypeError before detaching
anything, so the whole state — auth fields and group set alike — is left
unchanged. -/
def step (gu : String → Option Nat) (invoke : ReqData → Except Exc Unit)
    (ev : SessEvent) (st : AuthState) : AuthState :=
  match ev with
  | SessEvent.connect => st
  | SessEvent.request d => (call_method gu invoke st d).1
  | SessEvent.attach g => attach_group st g
  | SessEvent.detach g => detach_group st g
  | SessEvent.disconnect => { st with activeGroups := (disconnect st.activeGroups).1 }

/-- A session's life: the state after processing a list of events from the
freshly constructed state. -/
def run (gu : String → Option Nat) (invoke : ReqData → Except Exc Unit)
    (evs : List SessEvent) : AuthState :=
  evs.foldl (fun s e => step gu invoke e s) initState

/-- The spec invariant: authenticated is true exactly when the principal is
set. -/
def authInv (st : AuthState) : Prop :=
  st.authenticated = true ↔ st.user ≠ Option.none

theorem authInv_initState : authInv initState := by
  simp [authInv, initState]

theorem authInv_authenticate (gu : String → Option Nat) (st : AuthState)
    (tok : Option String) (hst : st.authenticated = false)
    (hu : st.user = Option.none) : authInv (authenticate gu st tok).1 := by
  unfold authenticate
  by_cases ht : tokenTruthy tok
  · simp only [ht, if_true]
    cases hgu : gu (tok.getD "") with
    | none => simp [authInv, hst]
    | some u =>
        simp only [hgu]
        unfold attach_group
        split <;> simp [authInv]
  · simp only [ht, if_false, Bool.false_eq_true]
    simp [authInv, hst, hu]

theorem authInv_step (gu : String → Option Nat) (invoke : ReqData → Except Exc Unit)
    (ev : SessEvent) (st : AuthState) (h : authInv st) :
    authInv (step gu invoke ev st) := by
  cases ev with
  | connect => exact h
  | attach g =>
      simp only [step]
      unfold attach_group
      split
      · exact h
      · simpa [authInv] using h
  | detach g =>
      simp only [step]
      unfold detach_group
      split
      · simpa [authInv] using h
      · exact h
  | disconnect => simpa [authInv, step] using h
  | request d =>
      simp only [step]
      unfold call_method
      by_cases ha : st.authenticated
      · simp only [ha, if_true]
        cases invoke d <;> simpa [authInv, ha] using h
      · simp only [ha]
        have ha' : st.authenticated = false := by
          cases hb : st.authenticated
          · rfl
          · exact absurd hb ha
        have hu : st.user = Option.none := by
          cases hq : st.user with
          | none => rfl
          | some u =>
              exfalso
              have : st.authenticated = true := by
                rcases h with ⟨_, h2⟩
                exact h2 (by simp [hq])
              simp [ha'] at this
        have hauth := authInv_authenticate gu st d.access_token ha' hu
        cases hmatch : authenticate gu st d.access_token with
        | mk st2 res =>
            cases res with
            | none =>
                cases invoke d <;> simpa [hmatch] using hauth
            | some ce => simpa [hmatch] using hauth

namespace PyDefaults

/-- A tiny heap of Python dict objects, so object identity and in-place
mutation are expressible: a dict reference is an index. -/
structure Heap where
  dicts : List Dict
deriving DecidableEq, Repr

/-- Dereference a dict. -/
def readRef (h : Heap) (r : Nat) : Dict :=
  h.dicts.getD r []

/-- In-place mutation of a dict object. -/
def writeRef (h : Heap) (r : Nat) (d : Dict) : Heap :=
  { dicts := h.dicts.set r d }

/-- References of the three default dict objects: each `kwargs={}` default in
TokenAuthConsumer.send_group_event, send_to_user and user_return is
evaluated once at class definition time, producing one dict object per
function, stored on the function object for the life of the process. -/
def sgeDefault : Nat := 0

def stuDefault : Nat := 1

def urDefault : Nat := 2

/-- The heap as of class definition time: the three default dicts, empty. -/
def initHeap : Heap := { dicts := [[], [], []] }

/-- The value TokenAuthConsumer.send_group_event stores under
'__initiator_id': self.user.id if self.authenticated else None. -/
def initiator (st : AuthState) : PyVal :=
  if st.authenticated then
    match st.user with
    | some u => PyVal.num u
    | Option.none => PyVal.none
  else PyVal.none

/-- What send_group_event hands to channel_layer.group_send: the group, the
event name, and the kwargs dict object (by reference — the very dict that
was just mutated). -/
structure SentEvent where
  group : String
  event_name : String
  kwargsRef : Nat
deriving DecidableEq, Repr

/-- TokenAuthConsumer.send_group_event: resolve the kwargs argument (the
shared default dict when omitted), execute
kwargs['__initiator_id'] = self.user.id if self.authenticated else None
as an in-place mutation of that object, then forward the same object. -/
def send_group_event (h : Heap) (st : AuthState) (group event : String)
    (kwargs : Option Nat) : Heap × SentEvent :=
  let r := kwargs.getD sgeDefault
  let h2 := writeRef h r (setKey (readRef h r) "__initiator_id" (initiator st))
  (h2, { group := group, event_name := event, kwargsRef := r })

/-- TokenAuthConsumer.send_to_user: forwards to send_group_event with the
group name user_group_prefix + str(user_id), passing its own kwargs argument
(its own shared default dict when omitted) explicitly. -/
def send_to_user (h : Heap) (st : AuthState) (user_id : Nat) (event : String)
    (kwargs : Option Nat) : Heap × SentEvent :=
  send_group_event h st (send_to_user_group user_id) event
    (some (kwargs.getD stuDefault))

/-- TokenAuthConsumer.user_return: forwards to send_group_event with
self.user_group_name and the fixed event name, passing its own kwargs
argument (its own shared default dict when omitted) explicitly. -/
def user_return (h : Heap) (st : AuthState) (kwargs : Option Nat) :
    Heap × SentEvent :=
  send_group_event h st ((st.user_group_name).getD "") "user_return"
    (some (kwargs.getD urDefault))

theorem getD_set_self (l : List Dict) (i : Nat) (a : Dict) (hi : i < l.length) :
    (l.set i a).getD i [] = a := by
  induction l generalizing i with
  | nil => simp at hi
  | cons hd tl ih =>
      cases i with
      | zero => rfl
      | succ n =>
          simp only [List.set, List.getD, List.getElem?_cons_succ]
          have hn : n < tl.length := by simpa using hi
          simpa [List.getD] using ih n hn

end PyDefaults

/-- Token lookup used in concrete scenarios: "tok" resolves to user 7,
anything else is an expired token. -/
def lk2 : String → LookupOutcome :=
  fun t => if t = "tok" then LookupOutcome.ok 7 else LookupOutcome.expired

/-- Token lookup whose every token is expired. -/
def lkExp : String → LookupOutcome := fun _ => LookupOutcome.expired

/-- An API method invocation that succeeds silently. -/
def invokeOk : ReqData → Except Exc Unit := fun _ => Except.ok ()

/-- An API method invocation that raises a non-domain exception. -/
def invokeBoom : ReqData → Except Exc Unit :=
  fun _ => Except.error (Exc.system "boom")

/-- A request with no token anywhere. -/
def c4req : ReqData :=
  { method := some "whoami"
    access_token := Option.none
    args := []
    kwargs := [] }

/-- A request carrying a valid token inside kwargs but not at top level. -/
def c4reqKw : ReqData :=
  { method := some "whoami"
    access_token := Option.none
    args := []
    kwargs := [("access_token", PyVal.str "tok")] }

/-- A request with a valid top-level token and a correlation token in
kwargs. -/
def c9req : ReqData :=
  { method := some "m"
    access_token := some "tok"
    args := []
    kwargs := [("__response_client_data", PyVal.str "corr-42")] }

/-- An authenticated session of user 5, for the defaults scenarios. -/
def authSt5 : AuthState :=
  { authenticated := true
    user := some 5
    user_group_name := some "5"
    activeGroups := ["5"] }

/-- A BaseConsumerError with a client-facing message, for the envelope
scenarios. -/
def c8err : ConsumerError :=
  { msg := "boom", error_type := ErrorType.fieldError, addition_parameters := [] }

/-- Claim C1: group-membership state is claimed per-session and isolated,
but BaseConsumer.active_groups is a single class-level set object shared by
every instance (the class body's set() is evaluated once and no instance
attribute is ever assigned), so attach_group on session 1 changes what
session 2 reads as its active_groups, and detach_group on session 1 removes
the group from session 2's view as well. -/
theorem c1_active_groups_not_per_session :
    (ClassAttr.active_groups_of { class_active_groups := [] } 2 = [])
    ∧ (ClassAttr.active_groups_of
        (ClassAttr.attach_group { class_active_groups := [] } 1 "room") 2 = ["room"])
    ∧ (ClassAttr.active_groups_of
        (ClassAttr.detach_group
          (ClassAttr.attach_group { class_active_groups := [] } 1 "room") 1 "room") 2 = []) := by
  refine ⟨rfl, rfl, rfl⟩

/-- Claim C2: successful authentication sets authenticated and joins a user
group, but the group joined is str(user.id) with no user_group_prefix
applied, while send_to_user(U) publishes to user_group_prefix + str(U) —
a different group, which the authenticated session is not a member of. -/
theorem c2_user_group_mismatch :
    ((authenticate (get_user_by_token lk2) initState (some "tok")).2 = Option.none)
    ∧ ((authenticate (get_user_by_token lk2) initState (some "tok")).1.authenticated = true)
    ∧ ((authenticate (get_user_by_token lk2) initState (some "tok")).1.user = some 7)
    ∧ ((authenticate (get_user_by_token lk2) initState (some "tok")).1.user_group_name = some "7")
    ∧ ((authenticate (get_user_by_token lk2) initState (some "tok")).1.activeGroups = ["7"])
    ∧ (send_to_user_group 7 = "__user7")
    ∧ ("__user7" ∉ (authenticate (get_user_by_token lk2) initState (some "tok")).1.activeGroups) := by
  refine ⟨rfl, rfl, rfl, rfl, rfl, rfl, by decide⟩

/-- Claim C3: disconnect is claimed to tear down all memberships without
throwing and leave activeGroups empty, but detach_all_groups hands
asyncio.wait a generator expression, which asyncio.wait rejects with
TypeError (generators count as legacy coroutines) before a single
detach_group coroutine runs — for zero and nonzero group sets alike. So
disconnect always raises, the exception propagates uncaught through
websocket_disconnect, no membership is torn down, and with a nonempty set
activeGroups is not empty afterwards. -/
theorem c3_disconnect_always_raises :
    (disconnect [] = ([], some wait_typeerror_msg))
    ∧ (disconnect ["a", "b"] = (["a", "b"], some wait_typeerror_msg))
    ∧ ((disconnect ["a", "b"]).2 ≠ Option.none)
    ∧ ((disconnect ["a", "b"]).1 ≠ []) := by
  refine ⟨rfl, rfl, by decide, by decide⟩

/-- Claim C4: dispatch on an unauthenticated session authenticates first and
the FIELD_ERROR is raised when the token is absent, but (i) the token is
read from the top-level data.get('access_token'), not from
kwargs['access_token'] — a valid token placed in kwargs still yields the
FIELD_ERROR — and (ii) the response the client receives is not a FIELD_ERROR
response: receive_json's error-forwarding call raises TypeError (mangled
handle_error parameter), so receive_text's fallback TYPE_ERROR response is
sent instead. The method is indeed not invoked and authenticated remains
false. -/
theorem c4_missing_token_response :
    (call_method (get_user_by_token lk2) invokeOk initState c4req
      = (initState, false, some (Exc.consumer noTokenError)))
    ∧ (noTokenError.error_type = ErrorType.fieldError)
    ∧ (c4reqKw.kwargs.lookup "access_token" = some (PyVal.str "tok"))
    ∧ (get_user_by_token lk2 "tok" = some 7)
    ∧ ((call_method (get_user_by_token lk2) invokeOk initState c4reqKw).2.2
      = some (Exc.consumer noTokenError))
    ∧ ((call_method (get_user_by_token lk2) invokeOk initState c4reqKw).2.1 = false)
    ∧ ((receive_text false (get_user_by_token lk2) invokeOk initState (Payload.jsonObj c4req)).sent
      = [fallbackResponse])
    ∧ ((receive_text false (get_user_by_token lk2) invokeOk initState (Payload.jsonObj c4req)).invoked
      = false)
    ∧ ((receive_text false (get_user_by_token lk2) invokeOk initState (Payload.jsonObj c4req)).state.authenticated
      = false)
    ∧ (fallbackResponse.type ≠ PyVal.tup1 (PyVal.err ErrorType.fieldError))
    ∧ (fallbackResponse.type ≠ PyVal.err ErrorType.fieldError) := by
  refine ⟨rfl, rfl, rfl, rfl, rfl, rfl, rfl, rfl, rfl, by decide, by decide⟩

/-- Claim C5: across every transition of a session's life — creation,
connect, authentication success or failure through dispatch, group attach
and detach, disconnect — authenticated is true exactly when the principal
is set. -/
theorem c5_authenticated_iff_principal (gu : String → Option Nat)
    (invoke : ReqData → Except Exc Unit) (evs : List SessEvent) :
    authInv (run gu invoke evs) := by
  have aux : ∀ (l : List SessEvent) (st : AuthState), authInv st →
      authInv (l.foldl (fun s e => step gu invoke e s) st) := by
    intro l
    induction l with
    | nil => intro st h; simpa using h
    | cons e tl ih =>
        intro st h
        simpa using ih _ (authInv_step gu invoke e st h)
  simpa [run] using aux evs initState authInv_initState

/-- Claim C6: authenticate raises the FIELD_ERROR exactly when the token is
absent or empty; for a present nonempty token every lookup failure cause
(malformed, expired, unknown, service error) yields the one identical
AUTHORIZATION_ERROR (no distinction); and in every failure case
authenticated remains false and active_groups is unchanged (no group
join). -/
theorem c6_auth_gate_errors (st : AuthState) (lk : String → LookupOutcome)
    (tok : Option String) (hst : st.authenticated = false) :
    ((authenticate (get_user_by_token lk) st tok).2 = some noTokenError
        ↔ tokenTruthy tok = false)
    ∧ (∀ s : String, tokenTruthy (some s) = true → (lk s).isFailure = true →
        (authenticate (get_user_by_token lk) st (some s)).2 = some authFailError)
    ∧ (∀ e : ConsumerError, (authenticate (get_user_by_token lk) st tok).2 = some e →
        (authenticate (get_user_by_token lk) st tok).1.authenticated = false
        ∧ (authenticate (get_user_by_token lk) st tok).1.activeGroups = st.activeGroups) := by
  refine ⟨?_, ?_, ?_⟩
  · unfold authenticate
    by_cases ht : tokenTruthy tok
    · simp only [ht, if_true]
      cases hgu : get_user_by_token lk (tok.getD "") with
      | none =>
          simp only []
          constructor
          · intro hsome
            exfalso
            have : authFailError = noTokenError := by
              injection hsome
            simp [authFailError, noTokenError] at this
          · intro hfalse
            simp [ht] at hfalse
      | some u =>
          simp only []
          constructor
          · intro hsome
            cases hsome
          · intro hfalse
            simp [ht] at hfalse
    · have ht' : tokenTruthy tok = false := by
        cases hb : tokenTruthy tok
        · rfl
        · exact absurd hb ht
      simp [ht', if_false]
  · intro s hs hfail
    unfold authenticate
    simp only [hs, if_true]
    have : get_user_by_token lk s = Option.none := by
      unfold get_user_by_token
      cases hl : lk s <;> simp_all [LookupOutcome.isFailure]
    simp [Option.getD, this]
  · intro e he
    unfold authenticate at he ⊢
    by_cases ht : tokenTruthy tok
    · simp only [ht, if_true] at he ⊢
      cases hgu : get_user_by_token lk (tok.getD "") with
      | none => simp [hst]
      | some u => simp [hgu] at he
    · have ht' : tokenTruthy tok = false := by
        cases hb : tokenTruthy tok
        · rfl
        · exact absurd hb ht
      simp [ht', hst]

/-- Claim C6 witness: the gate theorem applied to a fresh session, an
all-expired lookup, and a present token. -/
theorem c6_auth_gate_errors_witness :
    (initState.authenticated = false)
    ∧ ((authenticate (get_user_by_token lkExp) initState (some "t")).2 = some noTokenError
        ↔ tokenTruthy (some "t") = false) :=
  ⟨rfl, (c6_auth_gate_errors initState lkExp (some "t") rfl).1⟩

/-- Claim C7: a non-object payload (non-JSON text, or a JSON string, array
or number) never crashes the session — nothing escapes to the transport —
and an error response is sent; but the response's error-kind field is the
Python 1-tuple (TYPE_ERROR,) produced by send_error's trailing comma, never
the bare TYPE_ERROR code the claim states (the wire shows a one-element
array, not the code). -/
theorem c7_non_object_payload_response :
    ((receive_text false (get_user_by_token lk2) invokeOk initState Payload.jsonNonObj).sent
      = [fallbackResponse])
    ∧ ((receive_text false (get_user_by_token lk2) invokeOk initState Payload.jsonNonObj).escaped
      = Option.none)
    ∧ ((receive_text false (get_user_by_token lk2) invokeOk initState (Payload.nonJson "not json")).sent
      = [fallbackResponse])
    ∧ ((receive_text false (get_user_by_token lk2) invokeOk initState (Payload.nonJson "not json")).escaped
      = Option.none)
    ∧ (fallbackResponse.event = EventType.ERROR)
    ∧ (fallbackResponse.detail = PyVal.tup1 (PyVal.str "The data are not of JSON type."))
    ∧ (fallbackResponse.type = PyVal.tup1 (PyVal.err ErrorType.typeError))
    ∧ (∀ e : ErrorType, fallbackResponse.type ≠ PyVal.err e) := by
  refine ⟨rfl, rfl, rfl, rfl, rfl, rfl, rfl, ?_⟩
  intro e
  simp [fallbackResponse, handle_error, send_error]

/-- Claim C8: error responses are claimed to carry detail as a string, but
send_error's trailing commas make detail (and the type code) Python
1-tuples for every error object: a domain error's literal message, the
masked generic message, and the debug-mode message are all wrapped. The
masking logic itself is as claimed: non-domain errors get "Internal Server
Error" unless debug is set, domain errors keep their literal message. -/
theorem c8_error_detail_tuple :
    ((handle_error false (Exc.consumer c8err) PyVal.none).detail
      = PyVal.tup1 (PyVal.str "boom"))
    ∧ (∀ s : String, (handle_error false (Exc.consumer c8err) PyVal.none).detail
      ≠ PyVal.str s)
    ∧ ((handle_error false (Exc.system "secret traceback") PyVal.none).detail
      = PyVal.tup1 (PyVal.str "Internal Server Error"))
    ∧ ((handle_error true (Exc.system "secret traceback") PyVal.none).detail
      = PyVal.tup1 (PyVal.str "secret traceback"))
    ∧ ((handle_error false (Exc.consumer c8err) PyVal.none).type
      = PyVal.tup1 (PyVal.err ErrorType.fieldError)) := by
  refine ⟨rfl, ?_, rfl, rfl, rfl⟩
  intro s
  simp [handle_error, send_error, c8err]

/-- Claim C9: a correlation token in the request's kwargs is claimed to be
echoed unchanged in the error response, but when dispatch raises,
receive_json's handle_error call itself raises TypeError (the
__response_client_data parameter was name-mangled at definition and the
call-site keyword is not), so receive_text's fallback response is sent
instead: it carries __response_client_data = None, not the client's
value. -/
theorem c9_correlation_token_dropped :
    (c9req.kwargs.lookup "__response_client_data" = some (PyVal.str "corr-42"))
    ∧ ((receive_text false (get_user_by_token lk2) invokeBoom initState (Payload.jsonObj c9req)).sent
      = [fallbackResponse])
    ∧ ((receive_text false (get_user_by_token lk2) invokeBoom initState (Payload.jsonObj c9req)).escaped
      = Option.none)
    ∧ (fallbackResponse.additions.lookup "__response_client_data" = some PyVal.none)
    ∧ (fallbackResponse.additions.lookup "__response_client_data"
      ≠ some (PyVal.str "corr-42")) := by
  refine ⟨rfl, rfl, rfl, rfl, by decide⟩

/-- Claim C10: send_group_event writes '__initiator_id' into the
caller-supplied kwargs dict object itself and forwards that same object;
when kwargs is omitted the one default dict evaluated at class definition
time is used, so all omitted-kwargs calls on all sessions mutate that same
shared object (send_to_user and user_return likewise forward their own
single shared defaults into send_group_event). The closing conjuncts show
session authSt5 and then a different, unauthenticated session both mutating
the one sgeDefault object in turn. -/
theorem c10_kwargs_mutation (h : PyDefaults.Heap) (st : AuthState)
    (g e : String) (r : Nat) (hr : r < h.dicts.length) :
    ((PyDefaults.readRef (PyDefaults.send_group_event h st g e (some r)).1 r).lookup "__initiator_id"
      = some (PyDefaults.initiator st))
    ∧ ((PyDefaults.send_group_event h st g e (some r)).2.kwargsRef = r)
    ∧ ((PyDefaults.send_group_event h st g e Option.none).2.kwargsRef = PyDefaults.sgeDefault)
    ∧ ((PyDefaults.send_to_user h st 7 e Option.none).2.kwargsRef = PyDefaults.stuDefault)
    ∧ ((PyDefaults.user_return h st Option.none).2.kwargsRef = PyDefaults.urDefault)
    ∧ (PyDefaults.readRef
        (PyDefaults.send_group_event PyDefaults.initHeap authSt5 "g" "e" Option.none).1
        PyDefaults.sgeDefault
      = [("__initiator_id", PyVal.num 5)])
    ∧ (PyDefaults.readRef
        (PyDefaults.send_group_event
          (PyDefaults.send_group_event PyDefaults.initHeap authSt5 "g" "e" Option.none).1
          initState "g2" "e2" Option.none).1
        PyDefaults.sgeDefault
      = [("__initiator_id", PyVal.none)]) := by
  refine ⟨?_, rfl, rfl, rfl, rfl, rfl, rfl⟩
  show ((h.dicts.set r
      (setKey (PyDefaults.readRef h r) "__initiator_id" (PyDefaults.initiator st))).getD r []).lookup
        "__initiator_id" = some (PyDefaults.initiator st)
  rw [PyDefaults.getD_set_self h.dicts r _ hr]
  exact lookup_setKey _ _ _

/-- Claim C10 witness: the mutation theorem applied to the class-definition
heap, the authenticated session of user 5, and the first default dict. -/
theorem c10_kwargs_mutation_witness :
    (0 < PyDefaults.initHeap.dicts.length)
    ∧ ((PyDefaults.readRef
        (PyDefaults.send_group_event PyDefaults.initHeap authSt5 "g" "e" (some 0)).1 0).lookup
          "__initiator_id" = some (PyDefaults.initiator authSt5)) :=
  ⟨by simp [PyDefaults.initHeap],
   (c10_kwargs_mutation PyDefaults.initHeap authSt5 "g" "e" 0
     (by simp [PyDefaults.initHeap])).1⟩

end DSF
